import Mathlib

/-!
Shallow embedding of `src/pptx_handler/pptx_handler.py` (class `PowerpointHandler`)
for checking the specification claims.

Modelling conventions:
* Python exceptions are modelled by `Except PyErr`.
* Python `float` values are modelled exactly: `float()` applied to a decimal
  literal produces the rational `num / 10 ^ scale`, modelled by `PyDec`.  The
  claims' concrete inputs (`0.5`, `1`, `1.6`, `abc`, `None`) are either exactly
  representable as binary doubles or representation independent, so the exact
  decimal model is faithful on every value the claims mention; the final
  rounding of a decimal literal to a binary double is not modelled.
* Python dicts (insertion ordered) are modelled by association lists whose
  lookup is first-match and whose fresh-key insertion appends at the end.
* Slide numbers are the non-negative indices the handler's callers pass.
-/

deriving instance DecidableEq for Except

namespace Pptx

/-- Python exceptions that the embedded code can raise. -/
inductive PyErr where
  | valueError (msg : String)
  | indexError (msg : String)
  | typeError (msg : String)
  | keyError (msg : String)
deriving DecidableEq, Repr

/-- Digits of a decimal literal, most significant first, as a natural number
(`int("007") = 7`, arbitrary precision like Python). -/
def digitsToNat (l : List Char) : Nat :=
  l.foldl (fun a c => a * 10 + (c.toNat - 48)) 0

/-- Python whitespace stripping (`str.strip` / the stripping `float()` performs),
modelled for the ASCII whitespace characters. -/
def pyStrip (l : List Char) : List Char :=
  ((l.dropWhile (fun c => c == ' ' || c == '\t' || c == '\n' || c == '\r' ||
      c == '\x0b' || c == '\x0c')).reverse.dropWhile
    (fun c => c == ' ' || c == '\t' || c == '\n' || c == '\r' ||
      c == '\x0b' || c == '\x0c')).reverse

/-- Optional sign of a Python numeric literal: returns (isNegative, rest). -/
def parseSign : List Char → Bool × List Char
  | '+' :: r => (false, r)
  | '-' :: r => (true, r)
  | r => (false, r)

/-- Exact value of a Python `float` made from a decimal literal: the rational
`num / 10 ^ scale`. -/
structure PyDec where
  num : Int
  scale : Nat
deriving DecidableEq, Repr

/-- The exact value of a parsed decimal literal: integer-part digits,
fraction-part digits and a (signed) decimal exponent. -/
def decimalValue (neg : Bool) (ip fp : List Char) (e : Int) : PyDec :=
  let m : Int := (digitsToNat (ip ++ fp) : Int)
  let m : Int := if neg then -m else m
  if 0 ≤ e then ⟨m * (10 : Int) ^ e.toNat, fp.length⟩
  else ⟨m, fp.length + (-e).toNat⟩

/-- Python `float(s)` on decimal literals, modelled exactly:
optional whitespace, optional sign, digits with an optional point (at least one
digit overall), and an optional exponent part.  Not modelled (irrelevant to the
claims): `inf`/`nan` literals, underscores in digits, and double overflow. -/
def parsePyFloat (s : String) : Option PyDec :=
  let l := pyStrip s.data
  let p := parseSign l
  let ipr := p.2.span Char.isDigit
  let fpr : List Char × List Char :=
    match ipr.2 with
    | '.' :: rest => rest.span Char.isDigit
    | _ => ([], ipr.2)
  if ipr.1 = [] ∧ fpr.1 = [] then none
  else
    match fpr.2 with
    | [] => some (decimalValue p.1 ipr.1 fpr.1 0)
    | c :: rest =>
      if c == 'e' || c == 'E' then
        let q := parseSign rest
        let er := q.2.span Char.isDigit
        if er.1 = [] ∨ er.2 ≠ [] then none
        else
          let e : Int := if q.1 then -(digitsToNat er.1 : Int) else (digitsToNat er.1 : Int)
          some (decimalValue p.1 ipr.1 fpr.1 e)
      else none

/-- Round-half-to-even of the fraction `a / b` (for `b > 0`), the rounding
Python `round` uses, exact on the decimal model. -/
def roundHalfEvenInt (a b : Int) : Int :=
  let f : Int := Int.fdiv a b
  let r : Int := a - f * b
  if 2 * r < b then f
  else if b < 2 * r then f + 1
  else if f % 2 = 0 then f else f + 1

/-- Whether the value of `d` is strictly below 1 (`value_float < 1`). -/
def PyDec.ltOne (d : PyDec) : Bool :=
  d.num < (10 : Int) ^ d.scale

/-- Python `int(round(v, 0))`: the value rounded half-to-even to an integer. -/
def PyDec.roundToInt (d : PyDec) : Int :=
  roundHalfEvenInt d.num ((10 : Int) ^ d.scale)

/-- Python `round(v, 2)` expressed in hundredths: the integer `n` with
`round(v, 2) = n / 100`. -/
def PyDec.roundToHundredths (d : PyDec) : Int :=
  roundHalfEvenInt (d.num * 100) ((10 : Int) ^ d.scale)

/-- Python `str` of the float `n / 100` (the result of `round(v, 2)`), printed
with the minimal number of decimal digits but at least one, as Python does for
floats that are small exact hundredths (`str(1.0) = "1.0"`, `str(0.5) = "0.5"`).
Negative zero (`str(-0.0) = "-0.0"`) is not modelled; no claim touches it. -/
def formatHundredths (n : ℤ) : String :=
  let sign := if n < 0 then "-" else ""
  let m := n.natAbs
  let ip := m / 100
  let fp := m % 100
  if fp = 0 then sign ++ toString ip ++ ".0"
  else if fp % 10 = 0 then sign ++ toString ip ++ "." ++ toString (fp / 10)
  else if fp < 10 then sign ++ toString ip ++ ".0" ++ toString fp
  else sign ++ toString ip ++ "." ++ toString fp

/-- Python `str(round(v, 2))` in the decimal model. -/
def formatRound2 (d : PyDec) : String :=
  formatHundredths d.roundToHundredths

/-- One cell value of `add_table_from_excel_range` after the optional rounding
block (`pptx_handler.py` lines 434-442 / 455-463): when `is_round` is set,
`round_columns` is not `None` and the column is designated, the value is
converted with `float` (raising `ValueError` on a non-numeric string — there is
no `try`/`except` in the source), rounded to 2 decimals when `< 1` and to an
integer when `≥ 1`; otherwise the value passes through unchanged. -/
def processCell (is_round : Bool) (round_columns : Option (List Nat))
    (col_idx : Nat) (value : String) : Except PyErr String :=
  let designated : Bool :=
    is_round && (match round_columns with
      | some cols => cols.contains col_idx
      | none => false)
  if designated then
    match parsePyFloat value with
    | none => .error (.valueError ("could not convert string to float: " ++ value))
    | some v =>
      if v.ltOne then .ok (formatRound2 v)
      else .ok (toString v.roundToInt)
  else .ok value

/-- Cell text written on the `skip_header = False` branch (lines 448-468):
row 0 and cells whose extracted value is the string `"None"` get the empty
string, every other cell gets the (possibly rounded) value. -/
def cellTextNoSkip (is_round : Bool) (round_columns : Option (List Nat))
    (row_idx col_idx : Nat) (value : String) : Except PyErr String :=
  if value ≠ "None" ∧ row_idx ≠ 0 then processCell is_round round_columns col_idx value
  else .ok ""

/-- Cell text written on the `skip_header = True` branch (lines 427-447):
only `"None"` cells are blanked, all data rows are written (shifted one row
down in the pptx table). -/
def cellTextSkip (is_round : Bool) (round_columns : Option (List Nat))
    (col_idx : Nat) (value : String) : Except PyErr String :=
  if value ≠ "None" then processCell is_round round_columns col_idx value
  else .ok ""

/-- The inner `for col_idx, value in enumerate(row)` loop of the
`skip_header = False` branch, carrying the running column index. -/
def rowTextsNoSkip (is_round : Bool) (round_columns : Option (List Nat))
    (row_idx : Nat) : Nat → List String → Except PyErr (List String)
  | _, [] => .ok []
  | c, v :: vs =>
    match cellTextNoSkip is_round round_columns row_idx c v with
    | .error e => .error e
    | .ok t =>
      match rowTextsNoSkip is_round round_columns row_idx (c + 1) vs with
      | .error e => .error e
      | .ok ts => .ok (t :: ts)

/-- The outer `for row_idx, row in enumerate(table_data)` loop of the
`skip_header = False` branch, carrying the running row index. -/
def buildRowsNoSkip (is_round : Bool) (round_columns : Option (List Nat)) :
    Nat → List (List String) → Except PyErr (List (List String))
  | _, [] => .ok []
  | r, row :: rows =>
    match rowTextsNoSkip is_round round_columns r 0 row with
    | .error e => .error e
    | .ok ts =>
      match buildRowsNoSkip is_round round_columns (r + 1) rows with
      | .error e => .error e
      | .ok rs => .ok (ts :: rs)

/-- Table texts produced by `add_table_from_excel_range` with
`skip_header = False` from the extracted `table_data` grid (which the
extraction loop makes rectangular).  An error aborts the extraction: the
exception from `float` propagates out of the loop uncaught. -/
def buildTableNoSkip (is_round : Bool) (round_columns : Option (List Nat))
    (table_data : List (List String)) : Except PyErr (List (List String)) :=
  buildRowsNoSkip is_round round_columns 0 table_data

/-- The inner cell loop of the `skip_header = True` branch. -/
def rowTextsSkip (is_round : Bool) (round_columns : Option (List Nat)) :
    Nat → List String → Except PyErr (List String)
  | _, [] => .ok []
  | c, v :: vs =>
    match cellTextSkip is_round round_columns c v with
    | .error e => .error e
    | .ok t =>
      match rowTextsSkip is_round round_columns (c + 1) vs with
      | .error e => .error e
      | .ok ts => .ok (t :: ts)

/-- The outer row loop of the `skip_header = True` branch. -/
def buildRowsSkip (is_round : Bool) (round_columns : Option (List Nat)) :
    List (List String) → Except PyErr (List (List String))
  | [] => .ok []
  | row :: rows =>
    match rowTextsSkip is_round round_columns 0 row with
    | .error e => .error e
    | .ok ts =>
      match buildRowsSkip is_round round_columns rows with
      | .error e => .error e
      | .ok rs => .ok (ts :: rs)

/-- Table texts produced with `skip_header = True`: one extra untouched header
row of empty cells (fresh pptx table cells hold empty text), then the data rows
written at `row_idx + 1`. -/
def buildTableSkipHeader (is_round : Bool) (round_columns : Option (List Nat))
    (table_data : List (List String)) : Except PyErr (List (List String)) :=
  match buildRowsSkip is_round round_columns table_data with
  | .error e => .error e
  | .ok rs => .ok (List.replicate (table_data.headD []).length "" :: rs)

/-- A shape on a slide, identified by its name (the only attribute the indexed
lookups use). -/
structure Shape where
  name : String
deriving DecidableEq, Repr

/-- A slide, as its ordered shape collection (`slide.shapes`). -/
abbrev Slide := List Shape

/-- One slide's entry of `self.elements`: a Python dict from shape name to
positional index, modelled as an insertion-ordered association list. -/
abbrev ShapeDict := List (String × Nat)

/-- Python `dict.get(k)` on the association-list model: first match. -/
def dictGet (d : ShapeDict) (k : String) : Option Nat :=
  (d.find? (fun p => p.1 == k)).map (fun p => p.2)

/-- The handler state the indexed lookups touch: the presentation's slides and
the `self.elements` index (a dict keyed by slide ordinal, modelled as a list
aligned with the slides). -/
structure Handler where
  slides : List Slide
  elements : List ShapeDict
deriving DecidableEq, Repr

/-- `__get_shape_and_slide` (lines 122-140).  `self.pp.slides[slide_number]`
raises `IndexError` out of range (python-pptx `Slides.__getitem__`; it never
returns `None`, so the `ValueError("The slide number is not valid.")` branch is
unreachable).  `shape_id` is bound to the recorded index or to the default
sentinel string `"Shape not found"`, modelled by `Option Nat` with `none` for
the sentinel.  The source then compares `shape_name` — not `shape_id` — with
the sentinel, so an absent name flows into `slide.shapes[shape_id]` with the
sentinel string as index, which raises `TypeError` (string index into the
shape list). -/
def get_shape_and_slide (h : Handler) (slide_number : Nat) (shape_name : String) :
    Except PyErr (Option (Shape × Slide)) :=
  match h.slides[slide_number]? with
  | none => .error (.indexError "slide index out of range")
  | some slide =>
    match h.elements[slide_number]? with
    | none => .error (.keyError (toString slide_number))
    | some elems =>
      let shape_id : Option Nat := dictGet elems shape_name
      if shape_name = "Shape not found" then .ok none
      else
        match shape_id with
        | some i =>
          match slide[i]? with
          | some shape => .ok (some (shape, slide))
          | none => .error (.indexError "shape index out of range")
        | none => .error (.typeError "list indices must be integers or slices, not str")

/-- The first loop of `__update_elements_of_slide` (lines 108-110): walk the
live shapes with their enumeration index and record every name not yet present
(Python dict insertion appends the new key at the end). -/
def addNewShapes : ShapeDict → Nat → List Shape → ShapeDict
  | elems, _, [] => elems
  | elems, i, s :: ss =>
    addNewShapes
      (if (dictGet elems s.name).isSome then elems else elems ++ [(s.name, i)])
      (i + 1) ss

/-- `__update_elements_of_slide` (lines 96-119): out-of-range slide numbers
raise `IndexError` from the slides indexing (the `ValueError` branch is
unreachable, as in `get_shape_and_slide`); otherwise newly present shape names
are added with their current enumeration index and names no longer live are
deleted.  The JSON persistence is I/O and not modelled. -/
def update_elements_of_slide (h : Handler) (slide_number : Nat) :
    Except PyErr Handler :=
  match h.slides[slide_number]? with
  | none => .error (.indexError "slide index out of range")
  | some slide =>
    match h.elements[slide_number]? with
    | none => .error (.keyError (toString slide_number))
    | some elems =>
      let elems := addNewShapes elems 0 slide
      let live := slide.map Shape.name
      let elems := elems.filter (fun p => live.contains p.1)
      .ok { h with elements := h.elements.set slide_number elems }

/-- `__bring_shape_to_foreground` (lines 159-174).  The tuple unpacking
`shape, slide = ...` raises `TypeError` when the lookup returns `None` (so the
`if shape is None` guard after it is dead).  The line `shape.z_order = 0` sets
a plain Python instance attribute: python-pptx `BaseShape` defines no `z_order`
property, so the slide's shape tree is not touched.  The method then reconciles
the slide's index and saves (saving is I/O, not modelled). -/
def bring_shape_to_foreground (h : Handler) (slide_number : Nat)
    (shape_name : String) : Except PyErr Handler :=
  match get_shape_and_slide h slide_number shape_name with
  | .error e => .error e
  | .ok none => .error (.typeError "cannot unpack non-sequence NoneType object")
  | .ok (some _) => update_elements_of_slide h slide_number

/-- lxml `parent.insert(i, elem)` on the children list of a slide's
`<p:spTree>`: an element that is already in the tree is moved — removed from
its current position, then inserted at index `i`. -/
def lxmlInsert (tree : List String) (i : Nat) (elem : String) : List String :=
  let t := tree.erase elem
  t.take i ++ elem :: t.drop i

/-- The non-foreground insertion path of `add_chart_from_file` (line 315) and
`add_table_from_excel_range` (line 473): the freshly created element is
appended to the slide's element tree by `add_picture` / `add_table`, then
`slide.shapes._spTree.insert(2, ...)` moves it to element index 2.  In every
pptx slide the children at indices 0 and 1 of `<p:spTree>` are the non-shape
`<p:nvGrpSpPr>` and `<p:grpSpPr>` elements. -/
def add_then_insert2 (tree : List String) (elem : String) : List String :=
  lxmlInsert (tree ++ [elem]) 2 elem

/-- `__separate_row_column` (lines 142-157): `re.match(r"([A-Z]+)([0-9]+)", s,
re.I)` anchors at the start only, so it takes the maximal run of leading ASCII
letters, then a nonempty run of digits, and ignores any remaining characters;
anything else raises `ValueError("Invalid cell reference")`.  (`re.I` makes
`[A-Z]` match both cases; the exotic non-ASCII case-folding pairs Python also
accepts there are not modelled.) -/
def separate_row_column (cell_reference : String) : Except PyErr (String × Nat) :=
  let l := cell_reference.data
  let lr := l.span Char.isAlpha
  let dr := lr.2.span Char.isDigit
  if lr.1 ≠ [] ∧ dr.1 ≠ [] then .ok (String.mk lr.1, digitsToNat dr.1)
  else .error (.valueError "Invalid cell reference")

/-- Claim C8's shape, written from the spec's words for comparison with the
source behaviour: the whole string is one-or-more leading letters followed by
one-or-more digits and nothing else. -/
def specLettersThenDigits (s : String) : Bool :=
  let lr := s.data.span Char.isAlpha
  let dr := lr.2.span Char.isDigit
  !lr.1.isEmpty && !dr.1.isEmpty && dr.2.isEmpty

/-- The amended shape for claim C8, written from the amended words: the string
STARTS with one-or-more letters followed by at least one digit (anything after
the digits is ignored, as `re.match` only anchors at the start). -/
def specStartsLettersThenDigit (s : String) : Bool :=
  let lr := s.data.span Char.isAlpha
  !lr.1.isEmpty &&
    (match lr.2 with
     | c :: _ => c.isDigit
     | [] => false)

/-- Token of the regex produced by the SQL-LIKE translation of `like_operator`:
`%` becomes `.*` (`anyStr`), `_` becomes `.` (`anyChar`), and any other
pattern character stands for itself (the patterns the program uses contain only
letters and `%`; regex metacharacters other than the translated ones are not
modelled). -/
inductive LikeTok where
  | lit (c : Char)
  | anyChar
  | anyStr
deriving DecidableEq, Repr

/-- The SQL-LIKE to regex translation of `like_operator` (line 74):
`pattern.replace('%', '.*').replace('_', '.')`, read as tokens. -/
def likeTokens (pattern : String) : List LikeTok :=
  pattern.data.map (fun c =>
    if c == '%' then .anyStr
    else if c == '_' || c == '.' then .anyChar
    else .lit c)

/-- `re.match` of the translated pattern against the string: anchored at the
start, unanchored at the end (a match of any prefix suffices).  Fuelled to keep
the recursion structural; `likeFuel` below always supplies enough fuel. -/
def likeMatch : Nat → List LikeTok → List Char → Bool
  | 0, _, _ => false
  | _ + 1, [], _ => true
  | fuel + 1, .lit c :: ts, x :: xs => c == x && likeMatch fuel ts xs
  | _ + 1, .lit _ :: _, [] => false
  | fuel + 1, .anyChar :: ts, _ :: xs => likeMatch fuel ts xs
  | _ + 1, .anyChar :: _, [] => false
  | fuel + 1, .anyStr :: ts, xs =>
    likeMatch fuel ts xs ||
      (match xs with
       | [] => false
       | _ :: tail => likeMatch fuel (.anyStr :: ts) tail)

/-- Fuel bound for `likeMatch`: each step either consumes a token or (keeping
`anyStr`) a character, so tokens + characters + 1 steps suffice. -/
def likeFuel (ts : List LikeTok) (xs : List Char) : Nat :=
  ts.length + xs.length + 1

/-- `like_operator` (lines 63-75): translate the SQL LIKE pattern and test it
with `re.match` against the string. -/
def like_operator (pattern string : String) : Bool :=
  let ts := likeTokens pattern
  likeMatch (likeFuel ts string.data) ts string.data

/-- `pathlib`'s final path component (`Path(image).name` feeds `suffix` and
`stem`): the part after the last `/`. -/
def pyPathName (s : String) : String :=
  match (s.data.splitOn '/').getLast? with
  | some l => String.mk l
  | none => s

/-- `pathlib.Path.suffix`: the final dot-suffix of the name, empty when the
last dot is the first or last character of the name. -/
def pySuffix (s : String) : String :=
  let name := (pyPathName s).data
  let i := name.length - 1 - ((name.reverse.indexOf '.'))
  if name.contains '.' ∧ 0 < i ∧ i < name.length - 1 then String.mk (name.drop i)
  else ""

/-- `pathlib.Path.stem`: the name without its `suffix`. -/
def pyStem (s : String) : String :=
  let name := (pyPathName s).data
  let i := name.length - 1 - ((name.reverse.indexOf '.'))
  if name.contains '.' ∧ 0 < i ∧ i < name.length - 1 then String.mk (name.take i)
  else String.mk name

/-- The logo test of the constructor loop (lines 54-59): suffix is `.png` and
the stem matches the LIKE pattern `%ogo%`. -/
def logoPred (image : String) : Bool :=
  pySuffix image == ".png" && like_operator "%ogo%" (pyStem image)

/-- The constructor's logo search (lines 51-59): `self.logo_path` starts as
`None` and is overwritten by every matching file — no `break` — so the last
match in list order wins. -/
def selectLogo (powerpoint_images_dir : List String) : Option String :=
  powerpoint_images_dir.foldl
    (fun acc image => if logoPred image then some image else acc) none

/-- `datetime.now().strftime('%Y-%m-%d')`: zero-padded year, month, day. -/
def strftimeYmd (year month day : Nat) : String :=
  let pad := fun (w : Nat) (n : Nat) =>
    let s := toString n
    String.mk (List.replicate (w - s.length) '0') ++ s
  pad 4 year ++ "-" ++ pad 2 month ++ "-" ++ pad 2 day

/-- The output file name of `save_presentation` (line 224). -/
def save_presentation_file_name (current_date costumer_name : String) : String :=
  current_date ++ "_Datenanalyse_AKL_" ++ costumer_name ++ ".pptx"

/-- The full save target of `save_presentation` (line 225):
`self.target_dir / output_path` as (directory, file name). -/
def save_presentation_target (target_dir current_date costumer_name : String) :
    String × String :=
  (target_dir, save_presentation_file_name current_date costumer_name)

/-- Dict lookup on a cons cell: first match wins, as in a Python dict. -/
theorem dictGet_cons (p : String × Nat) (d : ShapeDict) (k : String) :
    dictGet (p :: d) k = if p.1 == k then some p.2 else dictGet d k := by
  by_cases hb : p.1 == k
  · simp [dictGet, List.find?_cons_of_pos _ hb, hb]
  · simp [dictGet, List.find?_cons_of_neg _ hb, hb]

/-- A key found on the left of an append is still found after the append. -/
theorem dictGet_append_left (d d2 : ShapeDict) (k : String) (v : Nat)
    (h : dictGet d k = some v) : dictGet (d ++ d2) k = some v := by
  induction d with
  | nil => simp [dictGet] at h
  | cons p d ih =>
    rw [List.cons_append, dictGet_cons] at *
    by_cases hb : p.1 == k
    · simpa [hb] using h
    · rw [if_neg hb] at h ⊢
      exact ih h

/-- Appending a fresh key makes it found. -/
theorem dictGet_append_fresh (d : ShapeDict) (k : String) (v : Nat)
    (h : dictGet d k = none) : dictGet (d ++ [(k, v)]) k = some v := by
  induction d with
  | nil => simp [dictGet_cons]
  | cons p d ih =>
    rw [dictGet_cons] at h
    by_cases hb : p.1 == k
    · rw [if_pos hb] at h; exact absurd h (by simp)
    · rw [if_neg hb] at h
      rw [List.cons_append, dictGet_cons, if_neg hb]
      exact ih h

/-- Filtering a dict by a predicate on the key: lookup survives exactly when
the key satisfies the predicate. -/
theorem dictGet_filter (f : String → Bool) (d : ShapeDict) (k : String) :
    dictGet (d.filter (fun p => f p.1)) k = if f k then dictGet d k else none := by
  induction d with
  | nil => cases hf : f k <;> simp [dictGet, hf]
  | cons p d ih =>
    by_cases hb : p.1 == k
    · have hpk : p.1 = k := by simpa using hb
      subst hpk
      cases hf : f p.1 <;> simp [List.filter_cons, hf, dictGet_cons, ih]
    · cases hf : f p.1 <;> simp [List.filter_cons, hf, dictGet_cons, hb, ih]

/-- The add-new-shapes loop never rewrites an existing entry. -/
theorem addNewShapes_preserves (ss : List Shape) :
    ∀ (d : ShapeDict) (i : Nat) (k : String) (v : Nat),
      dictGet d k = some v → dictGet (addNewShapes d i ss) k = some v := by
  induction ss with
  | nil => intro d i k v h; simpa [addNewShapes] using h
  | cons s ss ih =>
    intro d i k v h
    rw [addNewShapes]
    apply ih
    by_cases hs : (dictGet d s.name).isSome
    · simpa [hs] using h
    · rw [if_neg hs]
      exact dictGet_append_left _ _ _ _ h

/-- A key already present stays present through the add-new-shapes loop. -/
theorem addNewShapes_mono (ss : List Shape) (d : ShapeDict) (i : Nat) (k : String)
    (h : (dictGet d k).isSome = true) :
    (dictGet (addNewShapes d i ss) k).isSome = true := by
  obtain ⟨v, hv⟩ := Option.isSome_iff_exists.mp h
  rw [addNewShapes_preserves ss d i k v hv]
  rfl

/-- After the add-new-shapes loop every live shape name is present. -/
theorem addNewShapes_covers (ss : List Shape) :
    ∀ (d : ShapeDict) (i : Nat) (k : String),
      k ∈ ss.map Shape.name → (dictGet (addNewShapes d i ss) k).isSome = true := by
  induction ss with
  | nil => intro d i k h; simp at h
  | cons s ss ih =>
    intro d i k hk
    rw [List.map_cons, List.mem_cons] at hk
    rw [addNewShapes]
    rcases hk with hk | hk
    · subst hk
      apply addNewShapes_mono
      by_cases hs : (dictGet d s.name).isSome
      · simp [hs]
      · rw [if_neg hs]
        rw [dictGet_append_fresh d s.name i (Option.not_isSome_iff_eq_none.mp hs)]
        rfl
    · exact ih _ (i + 1) k hk

/-- Reconciliation never touches the slide list itself. -/
theorem update_elements_of_slide_slides (h : Handler) (n : Nat) (h2 : Handler)
    (hu : update_elements_of_slide h n = .ok h2) : h2.slides = h.slides := by
  unfold update_elements_of_slide at hu
  cases hs : h.slides[n]? with
  | none => rw [hs] at hu; exact absurd hu (by simp)
  | some slide =>
    rw [hs] at hu
    cases he : h.elements[n]? with
    | none => rw [he] at hu; exact absurd hu (by simp)
    | some elems =>
      rw [he] at hu
      injection hu with hu
      rw [← hu]

/-- Claim C3 (confirmed): for every valid slide number, after
`__update_elements_of_slide` returns, the recorded name set of that slide
equals exactly the set of live shape names (every live name present, no stale
name remaining), and every previously recorded name that is still live keeps
its previous positional index. -/
theorem claim_c3_reconcile (h : Handler) (n : Nat) (slide : Slide)
    (elems : ShapeDict) (h2 : Handler) (elems2 : ShapeDict)
    (hs : h.slides[n]? = some slide) (he : h.elements[n]? = some elems)
    (hu : update_elements_of_slide h n = .ok h2)
    (he2 : h2.elements[n]? = some elems2) :
    (∀ name, (dictGet elems2 name).isSome = true ↔ name ∈ slide.map Shape.name) ∧
    (∀ name i, dictGet elems name = some i → name ∈ slide.map Shape.name →
      dictGet elems2 name = some i) := by
  unfold update_elements_of_slide at hu
  rw [hs, he] at hu
  injection hu with hu
  rw [← hu] at he2
  have hlt : n < h.elements.length := (List.getElem?_eq_some.mp he).1
  rw [List.getElem?_set_self hlt] at he2
  injection he2 with he2
  rw [← he2]
  constructor
  · intro name
    rw [dictGet_filter (fun nm => (slide.map Shape.name).contains nm)]
    by_cases hc : (slide.map Shape.name).contains name
    · rw [if_pos hc]
      constructor
      · intro _; exact List.elem_iff.mp hc
      · intro hm; exact addNewShapes_covers slide elems 0 name hm
    · rw [if_neg hc]
      constructor
      · intro hfalse; exact absurd hfalse (by simp)
      · intro hm; exact absurd (List.elem_iff.mpr hm) hc
  · intro name i hgd hm
    rw [dictGet_filter (fun nm => (slide.map Shape.name).contains nm)]
    rw [if_pos (List.elem_iff.mpr hm)]
    exact addNewShapes_preserves slide elems 0 name i hgd

/-- Witness for C3 at a concrete handler: slide 0 holds shapes `a`, `b`; the
index held `a` at 0 plus the stale entry `c`; after reconciliation the index
is exactly the live names and `a` keeps index 0. -/
theorem claim_c3_witness :
    (update_elements_of_slide ⟨[[⟨"a"⟩, ⟨"b"⟩]], [[("a", 0), ("c", 5)]]⟩ 0 =
      .ok ⟨[[⟨"a"⟩, ⟨"b"⟩]], [[("a", 0), ("b", 1)]]⟩) ∧
    (∀ name, (dictGet [("a", 0), ("b", 1)] name).isSome = true ↔
      name ∈ ([⟨"a"⟩, ⟨"b"⟩] : Slide).map Shape.name) ∧
    dictGet [("a", 0), ("b", 1)] "a" = some 0 := by
  have h := claim_c3_reconcile ⟨[[⟨"a"⟩, ⟨"b"⟩]], [[("a", 0), ("c", 5)]]⟩ 0
    [⟨"a"⟩, ⟨"b"⟩] [("a", 0), ("c", 5)]
    ⟨[[⟨"a"⟩, ⟨"b"⟩]], [[("a", 0), ("b", 1)]]⟩ [("a", 0), ("b", 1)]
    rfl rfl (by decide) rfl
  exact ⟨by decide, h.1, h.2 "a" 0 (by decide) (by decide)⟩

/-- Claim C2 (code bug, evaluated): on a slide whose index records only shape
`a`, looking up an absent name raises `TypeError` (the sentinel check compares
`shape_name` instead of `shape_id`, so the sentinel string is used as a list
index) instead of returning the `None` sentinel; a recorded name returns the
shape and slide; and a shape literally named `"Shape not found"` returns
`None` even though it is recorded. -/
theorem claim_c2_lookup_eval :
    get_shape_and_slide ⟨[[⟨"a"⟩]], [[("a", 0)]]⟩ 0 "missing" =
      .error (.typeError "list indices must be integers or slices, not str") ∧
    get_shape_and_slide ⟨[[⟨"a"⟩]], [[("a", 0)]]⟩ 0 "a" =
      .ok (some (⟨"a"⟩, [⟨"a"⟩])) ∧
    get_shape_and_slide ⟨[[⟨"a"⟩, ⟨"Shape not found"⟩]],
        [[("a", 0), ("Shape not found", 1)]]⟩ 0 "Shape not found" = .ok none := by
  exact ⟨by decide, by decide, by decide⟩

/-- Claim C6 (amended): for every slide number at or beyond the slide count,
both the shape lookup and the per-slide reconciliation fail fatally — but with
the `IndexError` raised by the slides indexing; the
`ValueError("The slide number is not valid.")` branch is unreachable because
the indexing never yields `None`. -/
theorem claim_c6_out_of_range (h : Handler) (n : Nat) (shape_name : String)
    (hge : h.slides.length ≤ n) :
    get_shape_and_slide h n shape_name = .error (.indexError "slide index out of range") ∧
    update_elements_of_slide h n = .error (.indexError "slide index out of range") := by
  have hn : h.slides[n]? = none := List.getElem?_eq_none_iff.mpr hge
  constructor
  · unfold get_shape_and_slide
    rw [hn]
  · unfold update_elements_of_slide
    rw [hn]

/-- Witness for C6: a one-slide presentation with slide number 5. -/
theorem claim_c6_witness :
    (([[(⟨"a"⟩ : Shape)]] : List Slide).length ≤ 5) ∧
    get_shape_and_slide ⟨[[⟨"a"⟩]], [[("a", 0)]]⟩ 5 "x" =
      .error (.indexError "slide index out of range") := by
  exact ⟨by decide,
    (claim_c6_out_of_range ⟨[[⟨"a"⟩]], [[("a", 0)]]⟩ 5 "x" (by decide)).1⟩

/-- Counterexample for C6 as stated: out of range fails with `IndexError`,
which is not the claimed `ValueError("The slide number is not valid.")`. -/
theorem claim_c6_counterexample :
    get_shape_and_slide ⟨[[⟨"a"⟩]], [[("a", 0)]]⟩ 5 "x" =
      .error (.indexError "slide index out of range") ∧
    update_elements_of_slide ⟨[[⟨"a"⟩]], [[("a", 0)]]⟩ 5 =
      .error (.indexError "slide index out of range") ∧
    PyErr.indexError "slide index out of range" ≠
      PyErr.valueError "The slide number is not valid." := by
  exact ⟨by decide, by decide, by decide⟩

/-- Claim C7 (confirmed): `save_presentation` writes to the configured target
directory under `<date>_Datenanalyse_AKL_<customer>.pptx`, and for customer
`Acme` on 2024-03-01 the file name is exactly
`2024-03-01_Datenanalyse_AKL_Acme.pptx`. -/
theorem claim_c7_save_name :
    (∀ current_date costumer_name : String,
      save_presentation_file_name current_date costumer_name =
        current_date ++ "_Datenanalyse_AKL_" ++ costumer_name ++ ".pptx") ∧
    (∀ target_dir current_date costumer_name : String,
      save_presentation_target target_dir current_date costumer_name =
        (target_dir, save_presentation_file_name current_date costumer_name)) ∧
    strftimeYmd 2024 3 1 = "2024-03-01" ∧
    save_presentation_file_name (strftimeYmd 2024 3 1) "Acme" =
      "2024-03-01_Datenanalyse_AKL_Acme.pptx" := by
  exact ⟨fun _ _ => rfl, fun _ _ _ => rfl, by decide, by decide⟩

/-- Claim C9 (code bug, evaluated): `__bring_shape_to_foreground` never changes
the slide's shape stack — `shape.z_order = 0` sets an attribute python-pptx
does not interpret — shown concretely on a four-shape slide where shape `B`
stays last; while the non-foreground table/chart insertion path does place the
new element at element-tree index 2. -/
theorem claim_c9_zorder :
    (∀ (h : Handler) (n : Nat) (s : String) (h2 : Handler),
      bring_shape_to_foreground h n s = .ok h2 → h2.slides = h.slides) ∧
    (∀ (tree : List String) (elem : String), 2 ≤ tree.length → elem ∉ tree →
      (add_then_insert2 tree elem)[2]? = some elem) ∧
    bring_shape_to_foreground
      ⟨[[⟨"p0"⟩, ⟨"p1"⟩, ⟨"A"⟩, ⟨"B"⟩]], [[("p0", 0), ("p1", 1), ("A", 2), ("B", 3)]]⟩
      0 "B" =
      .ok ⟨[[⟨"p0"⟩, ⟨"p1"⟩, ⟨"A"⟩, ⟨"B"⟩]], [[("p0", 0), ("p1", 1), ("A", 2), ("B", 3)]]⟩ := by
  refine ⟨?_, ?_, by decide⟩
  · intro h n s h2 hb
    unfold bring_shape_to_foreground at hb
    cases hg : get_shape_and_slide h n s with
    | error e => rw [hg] at hb; exact absurd hb (by simp)
    | ok o =>
      rw [hg] at hb
      cases o with
      | none => exact absurd hb (by simp)
      | some p => exact update_elements_of_slide_slides h n h2 hb
  · intro tree elem hlen hmem
    unfold add_then_insert2 lxmlInsert
    have he : (tree ++ [elem]).erase elem = tree := by
      rw [List.erase_append_right _ hmem, List.erase_cons_head, List.append_nil]
    rw [he]
    have h2 : (tree.take 2).length = 2 := by
      rw [List.length_take]; omega
    rw [List.getElem?_append_right (by omega), h2]
    simp

/-- A successful cell loop yields one text per cell, each produced by
`cellTextNoSkip` at its running column index. -/
theorem rowTextsNoSkip_ok (ir : Bool) (rc : Option (List Nat)) (ri : Nat) :
    ∀ (vs : List String) (c : Nat) (out : List String),
      rowTextsNoSkip ir rc ri c vs = .ok out →
      out.length = vs.length ∧
        ∀ j v, vs[j]? = some v →
          ∃ t, out[j]? = some t ∧ cellTextNoSkip ir rc ri (c + j) v = .ok t := by
  intro vs
  induction vs with
  | nil =>
    intro c out h
    rw [rowTextsNoSkip] at h
    injection h with h
    rw [← h]
    exact ⟨rfl, by intro j v hj; simp at hj⟩
  | cons v vs ih =>
    intro c out h
    rw [rowTextsNoSkip] at h
    cases hcell : cellTextNoSkip ir rc ri c v with
    | error e => rw [hcell] at h; exact absurd h (by simp)
    | ok t =>
      rw [hcell] at h
      cases hrest : rowTextsNoSkip ir rc ri (c + 1) vs with
      | error e => rw [hrest] at h; exact absurd h (by simp)
      | ok ts =>
        rw [hrest] at h
        injection h with h
        rw [← h]
        obtain ⟨hlen, hcells⟩ := ih (c + 1) ts hrest
        refine ⟨by simp [hlen], ?_⟩
        intro j w hj
        cases j with
        | zero =>
          rw [List.getElem?_cons_zero] at hj
          injection hj with hj
          rw [← hj]
          exact ⟨t, by simp, by simpa using hcell⟩
        | succ j =>
          rw [List.getElem?_cons_succ] at hj
          obtain ⟨u, hu1, hu2⟩ := hcells j w hj
          refine ⟨u, by simpa using hu1, ?_⟩
          have harith : c + (j + 1) = c + 1 + j := by omega
          rw [harith]
          exact hu2

/-- A successful row loop yields one text row per data row, each produced by
the cell loop at its running row index. -/
theorem buildRowsNoSkip_ok (ir : Bool) (rc : Option (List Nat)) :
    ∀ (rows : List (List String)) (r : Nat) (out : List (List String)),
      buildRowsNoSkip ir rc r rows = .ok out →
      out.length = rows.length ∧
        ∀ i row, rows[i]? = some row →
          ∃ ts, out[i]? = some ts ∧ rowTextsNoSkip ir rc (r + i) 0 row = .ok ts := by
  intro rows
  induction rows with
  | nil =>
    intro r out h
    rw [buildRowsNoSkip] at h
    injection h with h
    rw [← h]
    exact ⟨rfl, by intro i row hi; simp at hi⟩
  | cons row rows ih =>
    intro r out h
    rw [buildRowsNoSkip] at h
    cases hrow : rowTextsNoSkip ir rc r 0 row with
    | error e => rw [hrow] at h; exact absurd h (by simp)
    | ok ts =>
      rw [hrow] at h
      cases hrest : buildRowsNoSkip ir rc (r + 1) rows with
      | error e => rw [hrest] at h; exact absurd h (by simp)
      | ok rs =>
        rw [hrest] at h
        injection h with h
        rw [← h]
        obtain ⟨hlen, hrows⟩ := ih (r + 1) rs hrest
        refine ⟨by simp [hlen], ?_⟩
        intro i row2 hi
        cases i with
        | zero =>
          rw [List.getElem?_cons_zero] at hi
          injection hi with hi
          rw [← hi]
          exact ⟨ts, by simp, by simpa using hrow⟩
        | succ i =>
          rw [List.getElem?_cons_succ] at hi
          obtain ⟨us, hu1, hu2⟩ := hrows i row2 hi
          refine ⟨us, by simpa using hu1, ?_⟩
          have harith : r + (i + 1) = r + 1 + i := by omega
          rw [harith]
          exact hu2

/-- In a designated rounding column an unparseable value raises `ValueError`. -/
theorem processCell_designated_none (cols : List Nat) (col : Nat) (value : String)
    (hcol : col ∈ cols) (hparse : parsePyFloat value = none) :
    processCell true (some cols) col value =
      .error (.valueError ("could not convert string to float: " ++ value)) := by
  have hc : cols.contains col = true := List.elem_iff.mpr hcol
  simp only [processCell, hc, Bool.true_and, hparse, eq_self_iff_true, if_true]

/-- In a designated rounding column a parsed value is rounded by the
`value_float < 1` test. -/
theorem processCell_designated_some (cols : List Nat) (col : Nat) (value : String)
    (d : PyDec) (hcol : col ∈ cols) (hparse : parsePyFloat value = some d) :
    processCell true (some cols) col value =
      if d.ltOne then .ok (formatRound2 d) else .ok (toString d.roundToInt) := by
  have hc : cols.contains col = true := List.elem_iff.mpr hcol
  simp only [processCell, hc, Bool.true_and, hparse, eq_self_iff_true, if_true]

/-- Claim C1 (amended): a value in a designated rounding column that is not
`"None"` and not parseable as a number makes the conversion raise
`ValueError`, which propagates — nothing is caught, the cell is not written
and the extraction aborts; shown on both the `skip_header` branches, where the
later numeric cell `7` is never reached. -/
theorem claim_c1_round_failure :
    (∀ (cols : List Nat) (col : Nat) (value : String),
      parsePyFloat value = none → col ∈ cols →
      processCell true (some cols) col value =
        .error (.valueError ("could not convert string to float: " ++ value))) ∧
    buildTableNoSkip true (some [0]) [["h"], ["abc"], ["7"]] =
      .error (.valueError "could not convert string to float: abc") ∧
    buildTableSkipHeader true (some [0]) [["abc"], ["7"]] =
      .error (.valueError "could not convert string to float: abc") := by
  refine ⟨?_, by decide, by decide⟩
  intro cols col value hparse hcol
  exact processCell_designated_none cols col value hcol hparse

/-- Witness for C1 at the concrete value `abc` in designated column 0. -/
theorem claim_c1_witness :
    (parsePyFloat "abc" = none) ∧ (0 ∈ [0]) ∧
    processCell true (some [0]) 0 "abc" =
      .error (.valueError "could not convert string to float: abc") := by
  exact ⟨by decide, by decide, claim_c1_round_failure.1 [0] 0 "abc" (by decide) (by decide)⟩

/-- Counterexample for C1 as stated: with rounding requested on column 0, the
grid row `abc` does not pass through unchanged — the whole extraction ends in
`ValueError` instead of completing with the value written unrounded. -/
theorem claim_c1_counterexample :
    buildTableNoSkip true (some [0]) [["h"], ["abc"]] =
      .error (.valueError "could not convert string to float: abc") ∧
    buildTableNoSkip true (some [0]) [["h"], ["abc"]] ≠ .ok [[""], ["abc"]] := by
  exact ⟨by decide, by decide⟩

/-- Claim C4 (amended): in a designated rounding column, a parsed numeric
value is formatted with 2 decimal places when it is strictly below 1 and as a
rounded integer when it is at least 1 (`PyDec.ltOne` is the code's
`value_float < 1` test — the boundary is `< 1`, not the claimed `≤ 1`);
`0.5` yields `0.5` and `1.6` yields `2`. -/
theorem claim_c4_rounding :
    (∀ (cols : List Nat) (col : Nat) (value : String) (d : PyDec),
      parsePyFloat value = some d → col ∈ cols →
      (d.ltOne = true →
        processCell true (some cols) col value = .ok (formatRound2 d)) ∧
      (d.ltOne = false →
        processCell true (some cols) col value = .ok (toString d.roundToInt))) ∧
    processCell true (some [0]) 0 "0.5" = .ok "0.5" ∧
    processCell true (some [0]) 0 "1.6" = .ok "2" := by
  refine ⟨?_, by decide, by decide⟩
  intro cols col value d hparse hcol
  rw [processCell_designated_some cols col value d hcol hparse]
  constructor
  · intro hlt; rw [if_pos hlt]
  · intro hge; rw [if_neg (by simp [hge])]

/-- Witness for C4 at the concrete value `1.6` (value 16/10, not below 1). -/
theorem claim_c4_witness :
    (parsePyFloat "1.6" = some ⟨16, 1⟩) ∧ (0 ∈ [0]) ∧
    (PyDec.ltOne ⟨16, 1⟩ = false) ∧
    processCell true (some [0]) 0 "1.6" = .ok (toString (PyDec.roundToInt ⟨16, 1⟩)) ∧
    toString (PyDec.roundToInt ⟨16, 1⟩) = "2" := by
  exact ⟨by decide, by decide, by decide,
    (claim_c4_rounding.1 [0] 0 "1.6" ⟨16, 1⟩ (by decide) (by decide)).2 (by decide),
    by decide⟩

/-- Counterexample for C4 as stated: the input `1.0` — a value `v ≤ 1`, since
`10 ≤ 10 ^ 1` — is written as `"1"` by the integer branch, not as the
two-decimal text `"1.0"` the claim's `v ≤ 1` rule prescribes; the code's
boundary is `v < 1`. -/
theorem claim_c4_counterexample :
    parsePyFloat "1.0" = some ⟨10, 1⟩ ∧
    ((10 : Int) ≤ 10 ^ 1) ∧
    processCell true (some [0]) 0 "1.0" = .ok "1" ∧
    formatRound2 ⟨10, 1⟩ = "1.0" ∧
    ("1" : String) ≠ "1.0" := by
  exact ⟨by decide, by decide, by decide, by decide, by decide⟩

/-- Claim C10 (amended): with `skip_header` false, every cell of row 0 is
written as the empty string regardless of its source value; a later-row cell
receives its (possibly rounded) value only when that value is not the string
`"None"` — a later-row `"None"` cell is also written as the empty string. -/
theorem claim_c10_header_row (ir : Bool) (rc : Option (List Nat))
    (grid res : List (List String))
    (_hrect : ∀ row ∈ grid, row.length = (grid.headD []).length)
    (hok : buildTableNoSkip ir rc grid = .ok res) :
    res.length = grid.length ∧
    ∀ i row, grid[i]? = some row →
      ∃ resRow, res[i]? = some resRow ∧ resRow.length = row.length ∧
        ∀ j v t, row[j]? = some v → resRow[j]? = some t →
          (i = 0 → t = "") ∧
          (i ≠ 0 → v = "None" → t = "") ∧
          (i ≠ 0 → v ≠ "None" → processCell ir rc j v = .ok t) := by
  obtain ⟨hlen, hrows⟩ := buildRowsNoSkip_ok ir rc grid 0 res hok
  refine ⟨hlen, ?_⟩
  intro i row hi
  obtain ⟨ts, hts, hrow⟩ := hrows i row hi
  obtain ⟨hlen2, hcells⟩ := rowTextsNoSkip_ok ir rc (0 + i) row 0 ts hrow
  refine ⟨ts, hts, hlen2, ?_⟩
  intro j v t hj ht
  obtain ⟨u, hu1, hu2⟩ := hcells j v hj
  rw [ht] at hu1
  injection hu1 with hu1
  rw [hu1]
  rw [cellTextNoSkip] at hu2
  refine ⟨?_, ?_, ?_⟩
  · intro hi0
    rw [if_neg (by simp [hi0])] at hu2
    injection hu2 with hu2
    exact hu2.symm
  · intro _ hv
    rw [if_neg (by simp [hv])] at hu2
    injection hu2 with hu2
    exact hu2.symm
  · intro hi0 hv
    rw [if_pos ⟨hv, by simpa using hi0⟩] at hu2
    simpa using hu2

/-- Witness for C10 on a concrete 2x2 grid with a later-row `"None"` cell. -/
theorem claim_c10_witness :
    (buildTableNoSkip false none [["h1", "h2"], ["5", "None"]] =
      .ok [["", ""], ["5", ""]]) ∧
    ([["", ""], ["5", ""]] : List (List String)).length =
      ([["h1", "h2"], ["5", "None"]] : List (List String)).length := by
  exact ⟨by decide,
    (claim_c10_header_row false none [["h1", "h2"], ["5", "None"]]
      [["", ""], ["5", ""]] (by decide) (by decide)).1⟩

/-- Counterexample for C10 as stated: the later-row cell `"None"` is written
as the empty string, not as its stringified source value `"None"`. -/
theorem claim_c10_counterexample :
    buildTableNoSkip false none [["h"], ["None"]] = .ok [[""], [""]] ∧
    ("" : String) ≠ "None" := by
  exact ⟨by decide, by decide⟩

/-- The overwrite-on-match fold of the constructor keeps the last match. -/
theorem selectLogo_eq_last (images : List String) :
    selectLogo images = (images.filter logoPred).getLast? := by
  induction images using List.reverseRecOn with
  | nil => rfl
  | append_singleton l x ih =>
    simp only [selectLogo] at ih ⊢
    simp only [List.foldl_append, List.foldl_cons, List.foldl_nil, List.filter_append]
    rw [ih]
    cases hp : logoPred x
    · simp [hp]
    · simp [hp, List.getLast?_concat]

/-- Claim C5 (amended): the logo selected by the constructor is the last — not
the first — file in list order whose suffix is `.png` and whose stem matches
the translated LIKE pattern `%ogo%` (the loop overwrites `self.logo_path` on
every match and never breaks); the LIKE instances behave as claimed. -/
theorem claim_c5_logo_selection :
    (∀ images : List String,
      selectLogo images = (images.filter logoPred).getLast?) ∧
    like_operator "%ogo%" "company_logo" = true ∧
    like_operator "%ogo%" "banner" = false := by
  exact ⟨selectLogo_eq_last, by decide, by decide⟩

/-- Counterexample for C5 as stated: both files match the logo test, yet the
selected one is the second, not the first. -/
theorem claim_c5_counterexample :
    logoPred "logo1.png" = true ∧
    logoPred "logo2.png" = true ∧
    selectLogo ["logo1.png", "logo2.png"] = some "logo2.png" ∧
    ("logo2.png" : String) ≠ "logo1.png" := by
  exact ⟨by decide, by decide, by decide, by decide⟩

/-- A digit run at the head of a span is nonempty iff the first character is a
digit. -/
theorem spanDigits_head (l : List Char) :
    (l.span Char.isDigit).1 ≠ [] ↔
      (match l with
       | c :: _ => c.isDigit = true
       | [] => False) := by
  cases l with
  | nil => simp [List.span_eq_take_drop]
  | cons c r =>
    rw [List.span_eq_take_drop]
    cases hd : Char.isDigit c <;> simp [List.takeWhile_cons, hd]

/-- Claim C8 (amended): the cell-reference parser succeeds exactly on strings
that START with one-or-more letters followed by at least one digit — `re.match`
only anchors at the beginning, so trailing characters such as in `"C4x"` are
ignored rather than rejected; `"C4"` parses to `("C", 4)` and `"4C"` raises
`ValueError`. -/
theorem claim_c8_cell_reference :
    (∀ s : String,
      (∃ cr, separate_row_column s = .ok cr) ↔ specStartsLettersThenDigit s = true) ∧
    separate_row_column "C4" = .ok ("C", 4) ∧
    separate_row_column "4C" = .error (.valueError "Invalid cell reference") ∧
    separate_row_column "C4x" = .ok ("C", 4) := by
  refine ⟨?_, by decide, by decide, by decide⟩
  intro s
  constructor
  · rintro ⟨cr, hcr⟩
    simp only [separate_row_column] at hcr
    by_cases hcond : (s.data.span Char.isAlpha).1 ≠ [] ∧
        ((s.data.span Char.isAlpha).2.span Char.isDigit).1 ≠ []
    · obtain ⟨h1, h2⟩ := hcond
      have h3 := (spanDigits_head _).mp h2
      simp only [specStartsLettersThenDigit, Bool.and_eq_true]
      constructor
      · cases hA : (s.data.span Char.isAlpha).1 with
        | nil => exact absurd hA h1
        | cons a as => rfl
      · cases hY : (s.data.span Char.isAlpha).2 with
        | nil => rw [hY] at h3; exact h3.elim
        | cons c r =>
          rw [hY] at h3
          show c.isDigit = true
          exact h3
    · rw [if_neg hcond] at hcr
      exact absurd hcr (by simp)
  · intro hspec
    simp only [specStartsLettersThenDigit, Bool.and_eq_true] at hspec
    obtain ⟨h1, h2⟩ := hspec
    have h1b : (s.data.span Char.isAlpha).1 ≠ [] := by
      cases hA : (s.data.span Char.isAlpha).1 with
      | nil => rw [hA] at h1; exact absurd h1 (by simp)
      | cons a as => simp [hA]
    have h2b : ((s.data.span Char.isAlpha).2.span Char.isDigit).1 ≠ [] := by
      apply (spanDigits_head _).mpr
      cases hY : (s.data.span Char.isAlpha).2 with
      | nil => rw [hY] at h2; exact absurd h2 (by simp)
      | cons c r =>
        rw [hY] at h2
        show c.isDigit = true
        exact h2
    simp only [separate_row_column]
    rw [if_pos ⟨h1b, h2b⟩]
    exact ⟨_, rfl⟩

/-- Counterexample for C8 as stated: `"C4x"` is not of the claimed
letters-then-digits shape, yet the parser succeeds instead of failing. -/
theorem claim_c8_counterexample :
    specLettersThenDigits "C4x" = false ∧
    separate_row_column "C4x" = .ok ("C", 4) := by
  exact ⟨by decide, by decide⟩

/-- Witness for C9 at concrete inputs. -/
theorem claim_c9_witness :
    (bring_shape_to_foreground ⟨[[⟨"a"⟩, ⟨"b"⟩]], [[("a", 0), ("b", 1)]]⟩ 0 "b" =
      .ok ⟨[[⟨"a"⟩, ⟨"b"⟩]], [[("a", 0), ("b", 1)]]⟩) ∧
    ([[(⟨"a"⟩ : Shape), ⟨"b"⟩]] : List Slide) = [[⟨"a"⟩, ⟨"b"⟩]] ∧
    (2 ≤ (["nv", "gp", "s1"] : List String).length) ∧
    ("x" ∉ (["nv", "gp", "s1"] : List String)) ∧
    (add_then_insert2 ["nv", "gp", "s1"] "x")[2]? = some "x" := by
  refine ⟨by decide, ?_, by decide, by decide, ?_⟩
  · exact claim_c9_zorder.1 ⟨[[⟨"a"⟩, ⟨"b"⟩]], [[("a", 0), ("b", 1)]]⟩ 0 "b"
      ⟨[[⟨"a"⟩, ⟨"b"⟩]], [[("a", 0), ("b", 1)]]⟩ (by decide)
  · exact claim_c9_zorder.2.1 ["nv", "gp", "s1"] "x" (by decide) (by decide)

end Pptx
